import Mathlib

/-!
# Reconciliation of a GitHub repository resource

A shallow embedding of `github/resource_github_repository.go`: the request
mapper `resourceGithubRepositoryObject` and the four lifecycle operations
`resourceGithubRepositoryCreate`, `resourceGithubRepositoryRead`,
`resourceGithubRepositoryUpdate` and `resourceGithubRepositoryDelete`.

The local record (`*schema.ResourceData`) is a record of its identifier and
its nineteen schema fields.  The remote client is a record of four
state-passing functions over an arbitrary remote state; every operation
returns its Go result, the local record it leaves, the remote state it leaves
and the list of remote calls it issued, in order.
-/

namespace Github

/-! ## Data model -/

/-- A Go `error` value, identified by its message. -/
structure GoError where
  msg : String
  deriving DecidableEq, Repr

/-- The part of `*github.Response` the source inspects: the HTTP status. -/
structure Response where
  StatusCode : Int
  deriving DecidableEq, Repr

/-- The fields of `github.Repository` the source reads or writes.  Every field
is a pointer in Go; `none` is the nil pointer (the field is absent from the
payload), `some v` a pointer to `v` (the field is present, also when `v` is
the empty string or `false`). -/
structure Repository where
  Name : Option String := none
  Description : Option String := none
  Homepage : Option String := none
  Private : Option Bool := none
  HasIssues : Option Bool := none
  HasWiki : Option Bool := none
  AllowMergeCommit : Option Bool := none
  AllowSquashMerge : Option Bool := none
  AllowRebaseMerge : Option Bool := none
  HasDownloads : Option Bool := none
  AutoInit : Option Bool := none
  LicenseTemplate : Option String := none
  GitignoreTemplate : Option String := none
  DefaultBranch : Option String := none
  FullName : Option String := none
  SSHURL : Option String := none
  SVNURL : Option String := none
  GitURL : Option String := none
  CloneURL : Option String := none
  deriving DecidableEq, Repr

/-- The local record `d *schema.ResourceData`, as `d.Id()` and `d.Get` see it:
the identifier and the value of each key of the schema (lines 23-107).  The
key `"private"` is the field `private_`. -/
structure ResourceData where
  Id : String := ""
  name : String := ""
  description : String := ""
  homepage_url : String := ""
  private_ : Bool := false
  has_issues : Bool := false
  has_wiki : Bool := false
  allow_merge_commit : Bool := true
  allow_squash_merge : Bool := true
  allow_rebase_merge : Bool := true
  has_downloads : Bool := false
  auto_init : Bool := false
  default_branch : String := ""
  license_template : String := ""
  gitignore_template : String := ""
  full_name : String := ""
  ssh_clone_url : String := ""
  svn_url : String := ""
  git_clone_url : String := ""
  http_clone_url : String := ""
  deriving DecidableEq, Repr

/-- What `d.Set(key, p)` stores for a `*string` argument: the string pointed
to, and the empty string for the nil pointer. -/
def setString (p : Option String) : String :=
  match p with
  | some v => v
  | none => ""

/-- What `d.Set(key, p)` stores for a `*bool` argument: the boolean pointed
to, and `false` for the nil pointer. -/
def setBool (p : Option Bool) : Bool :=
  match p with
  | some v => v
  | none => false

/-- The call `d.SetId(v)`. -/
def ResourceData.SetId (d : ResourceData) (v : String) : ResourceData :=
  { d with Id := v }

/-- The call `d.GetOk("default_branch")`: the value and whether it is set,
that is, differs from the zero value of its type. -/
def ResourceData.GetOk_default_branch (d : ResourceData) : String × Bool :=
  (d.default_branch, decide (d.default_branch ≠ ""))

/-- The answer of `client.Repositories.Get`: the entity when `err == nil`,
otherwise the response (possibly nil) and the error. -/
inductive GetResult where
  | found (repo : Repository)
  | failed (resp : Option Response) (err : GoError)
  deriving DecidableEq, Repr

/-- The remote client (`client.Repositories`), over a remote state `σ`: each
call reads the remote state and returns its answer with the state it leaves.
`Create` and `Edit` answer an entity or an error, `Delete` an error or nil. -/
structure Client (σ : Type) where
  Create : σ → String → Repository → Except GoError Repository × σ
  Get : σ → String → String → GetResult × σ
  Edit : σ → String → String → Repository → Except GoError Repository × σ
  Delete : σ → String → String → Option GoError × σ

/-- The value `meta.(*Organization)`: the owner name and the bound client. -/
structure Organization (σ : Type) where
  name : String
  client : Client σ

/-- A remote call, with its arguments. -/
inductive Call where
  | create (owner : String) (req : Repository)
  | get (owner name : String)
  | edit (owner name : String) (req : Repository)
  | delete (owner name : String)
  deriving DecidableEq, Repr

/-- How an operation ends: it returns a Go `error` (`none` is nil), or it
panics on a nil pointer dereference. -/
inductive Outcome where
  | returned (err : Option GoError)
  | panicked
  deriving DecidableEq, Repr

/-- One run of an operation: how it ended, the local record and the remote
state it left, and the remote calls it issued, first call first. -/
structure Run (σ : Type) where
  result : Outcome
  d : ResourceData
  remote : σ
  calls : List Call
  deriving DecidableEq

/-! ## The mapper and the four operations -/

/-- Lines 111-143: the mapper from the local record to the request payload. -/
def resourceGithubRepositoryObject (d : ResourceData) : Repository :=
  let name := d.name
  let description := d.description
  let homepageUrl := d.homepage_url
  let private_ := d.private_
  let hasIssues := d.has_issues
  let hasWiki := d.has_wiki
  let allowMergeCommit := d.allow_merge_commit
  let allowSquashMerge := d.allow_squash_merge
  let allowRebaseMerge := d.allow_rebase_merge
  let hasDownloads := d.has_downloads
  let autoInit := d.auto_init
  let licenseTemplate := d.license_template
  let gitIgnoreTemplate := d.gitignore_template
  { Name := some name
    Description := some description
    Homepage := some homepageUrl
    Private := some private_
    HasIssues := some hasIssues
    HasWiki := some hasWiki
    AllowMergeCommit := some allowMergeCommit
    AllowSquashMerge := some allowSquashMerge
    AllowRebaseMerge := some allowRebaseMerge
    HasDownloads := some hasDownloads
    AutoInit := some autoInit
    LicenseTemplate := some licenseTemplate
    GitignoreTemplate := some gitIgnoreTemplate }

/-- The test `resp != nil && resp.StatusCode == 404` of line 170. -/
def isNotFound (resp : Option Response) : Bool :=
  match resp with
  | some r => decide (r.StatusCode = 404)
  | none => false

/-- Lines 181-196: the sixteen `d.Set` calls of a successful Read. -/
def readFields (d : ResourceData) (repoName : String) (repo : Repository) : ResourceData :=
  { d with
    name := repoName
    description := setString repo.Description
    homepage_url := setString repo.Homepage
    private_ := setBool repo.Private
    has_issues := setBool repo.HasIssues
    has_wiki := setBool repo.HasWiki
    allow_merge_commit := setBool repo.AllowMergeCommit
    allow_squash_merge := setBool repo.AllowSquashMerge
    allow_rebase_merge := setBool repo.AllowRebaseMerge
    has_downloads := setBool repo.HasDownloads
    full_name := setString repo.FullName
    default_branch := setString repo.DefaultBranch
    ssh_clone_url := setString repo.SSHURL
    svn_url := setString repo.SVNURL
    git_clone_url := setString repo.GitURL
    http_clone_url := setString repo.CloneURL }

/-- Lines 163-198. -/
def resourceGithubRepositoryRead {σ : Type} (org : Organization σ) (s : σ)
    (d : ResourceData) : Run σ :=
  let client := org.client
  let repoName := d.Id
  match client.Get s org.name repoName with
  | (GetResult.failed resp err, s1) =>
    if isNotFound resp then
      { result := Outcome.returned none, d := d.SetId "", remote := s1,
        calls := [Call.get org.name repoName] }
    else
      { result := Outcome.returned (some err), d := d, remote := s1,
        calls := [Call.get org.name repoName] }
  | (GetResult.found repo, s1) =>
    { result := Outcome.returned none, d := readFields d repoName repo, remote := s1,
      calls := [Call.get org.name repoName] }

/-- The error of line 149. -/
def errDefaultBranchOnCreate : GoError :=
  ⟨"Cannot set the default branch on a new repository."⟩

/-- Lines 145-161. -/
def resourceGithubRepositoryCreate {σ : Type} (org : Organization σ) (s : σ)
    (d : ResourceData) : Run σ :=
  let client := org.client
  if d.GetOk_default_branch.2 then
    { result := Outcome.returned (some errDefaultBranchOnCreate), d := d, remote := s,
      calls := [] }
  else
    let repoReq := resourceGithubRepositoryObject d
    match client.Create s org.name repoReq with
    | (Except.error err, s1) =>
      { result := Outcome.returned (some err), d := d, remote := s1,
        calls := [Call.create org.name repoReq] }
    | (Except.ok repo, s1) =>
      match repo.Name with
      | none =>
        { result := Outcome.panicked, d := d, remote := s1,
          calls := [Call.create org.name repoReq] }
      | some n =>
        let r := resourceGithubRepositoryRead org s1 (d.SetId n)
        { r with calls := Call.create org.name repoReq :: r.calls }

/-- Lines 202-210: the request payload Update builds. -/
def updateRequest (d : ResourceData) : Repository :=
  let repoReq := resourceGithubRepositoryObject d
  match d.GetOk_default_branch with
  | (branch, true) =>
    if branch ≠ "master" then { repoReq with DefaultBranch := some branch } else repoReq
  | (_, false) => repoReq

/-- Lines 200-221. -/
def resourceGithubRepositoryUpdate {σ : Type} (org : Organization σ) (s : σ)
    (d : ResourceData) : Run σ :=
  let client := org.client
  let repoReq := updateRequest d
  let repoName := d.Id
  match client.Edit s org.name repoName repoReq with
  | (Except.error err, s1) =>
    { result := Outcome.returned (some err), d := d, remote := s1,
      calls := [Call.edit org.name repoName repoReq] }
  | (Except.ok repo, s1) =>
    match repo.Name with
    | none =>
      { result := Outcome.panicked, d := d, remote := s1,
        calls := [Call.edit org.name repoName repoReq] }
    | some n =>
      let r := resourceGithubRepositoryRead org s1 (d.SetId n)
      { r with calls := Call.edit org.name repoName repoReq :: r.calls }

/-- Lines 223-229. -/
def resourceGithubRepositoryDelete {σ : Type} (org : Organization σ) (s : σ)
    (d : ResourceData) : Run σ :=
  let client := org.client
  let repoName := d.Id
  match client.Delete s org.name repoName with
  | (err, s1) =>
    { result := Outcome.returned err, d := d, remote := s1,
      calls := [Call.delete org.name repoName] }

/-! ## Sample remotes

Small concrete remotes, used to evaluate the operations. -/

/-- A remote without state that gives the same four answers to every call. -/
def constClient (cr : Except GoError Repository) (g : GetResult)
    (ed : Except GoError Repository) (del : Option GoError) : Client Unit where
  Create := fun s _ _ => (cr, s)
  Get := fun s _ _ => (g, s)
  Edit := fun s _ _ _ => (ed, s)
  Delete := fun s _ _ => (del, s)

/-- The remote entity of the example of the specification. -/
def demoEntity : Repository :=
  { Name := some "demo", FullName := some "org/demo", SSHURL := some "git@...:org/demo.git" }

/-- A failed call answered with the given HTTP status. -/
def failedWith (status : Int) (msg : String) : GetResult :=
  GetResult.failed (some ⟨status⟩) ⟨msg⟩

/-- An organization `org` whose remote answers every Create and Edit with
`demoEntity`, every Get with `g` and every Delete with nil. -/
def demoOrg (g : GetResult) : Organization Unit :=
  { name := "org", client := constClient (Except.ok demoEntity) g (Except.ok demoEntity) none }

/-- A desired state with a description, for a remote whose entity carries
another description. -/
def driftInput : ResourceData :=
  { name := "demo", description := "declared locally" }

/-- A fully populated remote entity whose description differs from that of
`driftInput`. -/
def driftEntity : Repository :=
  { Name := some "demo", Description := some "edited remotely", Homepage := some "",
    Private := some false, HasIssues := some false, HasWiki := some false,
    AllowMergeCommit := some true, AllowSquashMerge := some true,
    AllowRebaseMerge := some true, HasDownloads := some false,
    DefaultBranch := some "master", FullName := some "org/demo",
    SSHURL := some "git@...:org/demo.git", SVNURL := some "https://.../org/demo",
    GitURL := some "git://.../org/demo.git", CloneURL := some "https://.../org/demo.git" }

/-- An organization whose remote answers Create, Get and Edit with
`driftEntity`. -/
def driftOrg : Organization Unit :=
  { name := "org",
    client := constClient (Except.ok driftEntity) (GetResult.found driftEntity)
      (Except.ok driftEntity) none }

/-- The desired state of the example of the specification. -/
def demoInput : ResourceData :=
  { name := "demo", private_ := true, allow_merge_commit := true }

/-- A remote entity that carries the values of `demoInput` and the computed
fields of the example of the specification. -/
def demoEcho : Repository :=
  { resourceGithubRepositoryObject demoInput with
    FullName := some "org/demo", SSHURL := some "git@...:org/demo.git" }

/-- An organization whose remote answers Create, Get and Edit with `demoEcho`. -/
def demoEchoOrg : Organization Unit :=
  { name := "org",
    client := constClient (Except.ok demoEcho) (GetResult.found demoEcho)
      (Except.ok demoEcho) none }

/-- A fixed remote on which no repository exists under a non-empty name (Get
answers 404) and which rejects the empty name with status 400. -/
def vanishedClient : Client Unit where
  Create := fun s _ _ => (Except.error ⟨"Unprocessable Entity"⟩, s)
  Get := fun s _ n =>
    if n = "" then (failedWith 400 "Bad Request", s) else (failedWith 404 "Not Found", s)
  Edit := fun s _ _ _ => (Except.error ⟨"Not Found"⟩, s)
  Delete := fun s _ _ => (some ⟨"Not Found"⟩, s)

/-- The organization bound to `vanishedClient`. -/
def vanishedOrg : Organization Unit :=
  { name := "org", client := vanishedClient }

/-- The entity `ghostClient` answers for the empty name. -/
def ghostEntity : Repository :=
  { Name := some "", Description := some "ghost", FullName := some "org/" }

/-- A fixed remote on which no repository exists under a non-empty name (Get
answers 404) and which answers an entity for the empty name. -/
def ghostClient : Client Unit where
  Create := fun s _ _ => (Except.error ⟨"Unprocessable Entity"⟩, s)
  Get := fun s _ n =>
    if n = "" then (GetResult.found ghostEntity, s) else (failedWith 404 "Not Found", s)
  Edit := fun s _ _ _ => (Except.error ⟨"Not Found"⟩, s)
  Delete := fun s _ _ => (some ⟨"Not Found"⟩, s)

/-- The organization bound to `ghostClient`. -/
def ghostOrg : Organization Unit :=
  { name := "org", client := ghostClient }

/-- The create payloads of a list of calls. -/
def createPayloads : List Call → List Repository
  | [] => []
  | Call.create _ req :: cs => req :: createPayloads cs
  | _ :: cs => createPayloads cs

/-- Whether a Get answer is the not-found answer of line 170: a failure whose
response is present and has status 404. -/
def answersNotFound (g : GetResult) : Bool :=
  match g with
  | GetResult.failed resp _ => isNotFound resp
  | GetResult.found _ => false

/-- The four operations the resource registers (lines 15-18). -/
inductive Op where
  | Create
  | Read
  | Update
  | Delete
  deriving DecidableEq, Repr

/-- The function registered for an operation (lines 15-18). -/
def resourceGithubRepository {σ : Type} (op : Op) (org : Organization σ) (s : σ)
    (d : ResourceData) : Run σ :=
  match op with
  | Op.Create => resourceGithubRepositoryCreate org s d
  | Op.Read => resourceGithubRepositoryRead org s d
  | Op.Update => resourceGithubRepositoryUpdate org s d
  | Op.Delete => resourceGithubRepositoryDelete org s d

/-- Two Reads in succession: the second starts from the local record and the
remote state the first one left. -/
def readTwice {σ : Type} (org : Organization σ) (s : σ) (d : ResourceData) : Run σ :=
  let r1 := resourceGithubRepositoryRead org s d
  let r2 := resourceGithubRepositoryRead org r1.remote r1.d
  { r2 with calls := r1.calls ++ r2.calls }

/-! ## Theorems -/

/-! ### The branches of the operations -/

theorem read_of_found {σ : Type} (org : Organization σ) (s s1 : σ) (d : ResourceData)
    (repo : Repository) (hget : org.client.Get s org.name d.Id = (GetResult.found repo, s1)) :
    resourceGithubRepositoryRead org s d
      = { result := Outcome.returned none, d := readFields d d.Id repo, remote := s1,
          calls := [Call.get org.name d.Id] } := by
  simp [resourceGithubRepositoryRead, hget]

theorem read_of_not_found {σ : Type} (org : Organization σ) (s s1 : σ) (d : ResourceData)
    (resp : Option Response) (err : GoError)
    (hget : org.client.Get s org.name d.Id = (GetResult.failed resp err, s1))
    (h404 : isNotFound resp = true) :
    resourceGithubRepositoryRead org s d
      = { result := Outcome.returned none, d := d.SetId "", remote := s1,
          calls := [Call.get org.name d.Id] } := by
  simp [resourceGithubRepositoryRead, hget, h404]

theorem read_of_error {σ : Type} (org : Organization σ) (s s1 : σ) (d : ResourceData)
    (resp : Option Response) (err : GoError)
    (hget : org.client.Get s org.name d.Id = (GetResult.failed resp err, s1))
    (h404 : isNotFound resp = false) :
    resourceGithubRepositoryRead org s d
      = { result := Outcome.returned (some err), d := d, remote := s1,
          calls := [Call.get org.name d.Id] } := by
  simp [resourceGithubRepositoryRead, hget, h404]

theorem read_calls {σ : Type} (org : Organization σ) (s : σ) (d : ResourceData) :
    (resourceGithubRepositoryRead org s d).calls = [Call.get org.name d.Id] := by
  rcases hg : org.client.Get s org.name d.Id with ⟨g, s1⟩
  cases g with
  | found repo => rw [read_of_found org s s1 d repo hg]
  | failed resp err =>
    cases h4 : isNotFound resp with
    | true => rw [read_of_not_found org s s1 d resp err hg h4]
    | false => rw [read_of_error org s s1 d resp err hg h4]

theorem create_of_rejected {σ : Type} (org : Organization σ) (s : σ) (d : ResourceData)
    (h : d.default_branch ≠ "") :
    resourceGithubRepositoryCreate org s d
      = { result := Outcome.returned (some errDefaultBranchOnCreate), d := d, remote := s,
          calls := [] } := by
  simp [resourceGithubRepositoryCreate, ResourceData.GetOk_default_branch, h]

theorem create_of_error {σ : Type} (org : Organization σ) (s s1 : σ) (d : ResourceData)
    (err : GoError) (h : d.default_branch = "")
    (hc : org.client.Create s org.name (resourceGithubRepositoryObject d)
      = (Except.error err, s1)) :
    resourceGithubRepositoryCreate org s d
      = { result := Outcome.returned (some err), d := d, remote := s1,
          calls := [Call.create org.name (resourceGithubRepositoryObject d)] } := by
  simp [resourceGithubRepositoryCreate, ResourceData.GetOk_default_branch, h, hc]

theorem create_of_nameless {σ : Type} (org : Organization σ) (s s1 : σ) (d : ResourceData)
    (repo : Repository) (h : d.default_branch = "")
    (hc : org.client.Create s org.name (resourceGithubRepositoryObject d)
      = (Except.ok repo, s1))
    (hn : repo.Name = none) :
    resourceGithubRepositoryCreate org s d
      = { result := Outcome.panicked, d := d, remote := s1,
          calls := [Call.create org.name (resourceGithubRepositoryObject d)] } := by
  simp [resourceGithubRepositoryCreate, ResourceData.GetOk_default_branch, h, hc, hn]

theorem create_of_created {σ : Type} (org : Organization σ) (s s1 : σ) (d : ResourceData)
    (repo : Repository) (n : String) (h : d.default_branch = "")
    (hc : org.client.Create s org.name (resourceGithubRepositoryObject d)
      = (Except.ok repo, s1))
    (hn : repo.Name = some n) :
    resourceGithubRepositoryCreate org s d
      = { result := (resourceGithubRepositoryRead org s1 (d.SetId n)).result,
          d := (resourceGithubRepositoryRead org s1 (d.SetId n)).d,
          remote := (resourceGithubRepositoryRead org s1 (d.SetId n)).remote,
          calls := Call.create org.name (resourceGithubRepositoryObject d)
            :: (resourceGithubRepositoryRead org s1 (d.SetId n)).calls } := by
  simp [resourceGithubRepositoryCreate, ResourceData.GetOk_default_branch, h, hc, hn]

theorem update_of_error {σ : Type} (org : Organization σ) (s s1 : σ) (d : ResourceData)
    (err : GoError)
    (hc : org.client.Edit s org.name d.Id (updateRequest d) = (Except.error err, s1)) :
    resourceGithubRepositoryUpdate org s d
      = { result := Outcome.returned (some err), d := d, remote := s1,
          calls := [Call.edit org.name d.Id (updateRequest d)] } := by
  simp [resourceGithubRepositoryUpdate, hc]

theorem update_of_nameless {σ : Type} (org : Organization σ) (s s1 : σ) (d : ResourceData)
    (repo : Repository)
    (hc : org.client.Edit s org.name d.Id (updateRequest d) = (Except.ok repo, s1))
    (hn : repo.Name = none) :
    resourceGithubRepositoryUpdate org s d
      = { result := Outcome.panicked, d := d, remote := s1,
          calls := [Call.edit org.name d.Id (updateRequest d)] } := by
  simp [resourceGithubRepositoryUpdate, hc, hn]

theorem update_of_edited {σ : Type} (org : Organization σ) (s s1 : σ) (d : ResourceData)
    (repo : Repository) (n : String)
    (hc : org.client.Edit s org.name d.Id (updateRequest d) = (Except.ok repo, s1))
    (hn : repo.Name = some n) :
    resourceGithubRepositoryUpdate org s d
      = { result := (resourceGithubRepositoryRead org s1 (d.SetId n)).result,
          d := (resourceGithubRepositoryRead org s1 (d.SetId n)).d,
          remote := (resourceGithubRepositoryRead org s1 (d.SetId n)).remote,
          calls := Call.edit org.name d.Id (updateRequest d)
            :: (resourceGithubRepositoryRead org s1 (d.SetId n)).calls } := by
  simp [resourceGithubRepositoryUpdate, hc, hn]

/-! ### The claims -/

/-- C1: when the local `default_branch` is non-empty, Create returns the
validation error of line 149, issues no remote call, leaves the remote state
alone and leaves the local record (identifier and every field) unchanged. -/
theorem create_default_branch_rejected {σ : Type} (org : Organization σ) (s : σ)
    (d : ResourceData) (h : d.default_branch ≠ "") :
    (resourceGithubRepositoryCreate org s d).result
        = Outcome.returned (some errDefaultBranchOnCreate)
      ∧ (resourceGithubRepositoryCreate org s d).calls = []
      ∧ (resourceGithubRepositoryCreate org s d).d = d
      ∧ (resourceGithubRepositoryCreate org s d).remote = s := by
  simp [resourceGithubRepositoryCreate, ResourceData.GetOk_default_branch, h]

/-- Witness of C1: a record with `default_branch = "develop"`. -/
theorem create_default_branch_rejected_witness :
    (resourceGithubRepositoryCreate (demoOrg (GetResult.found demoEntity)) ()
        { name := "demo", default_branch := "develop" }).result
        = Outcome.returned (some errDefaultBranchOnCreate)
      ∧ (resourceGithubRepositoryCreate (demoOrg (GetResult.found demoEntity)) ()
        { name := "demo", default_branch := "develop" }).calls = []
      ∧ (resourceGithubRepositoryCreate (demoOrg (GetResult.found demoEntity)) ()
        { name := "demo", default_branch := "develop" }).d
        = { name := "demo", default_branch := "develop" }
      ∧ (resourceGithubRepositoryCreate (demoOrg (GetResult.found demoEntity)) ()
        { name := "demo", default_branch := "develop" }).remote = () :=
  create_default_branch_rejected (demoOrg (GetResult.found demoEntity)) ()
    { name := "demo", default_branch := "develop" } (by decide)

/-- C2: when the Get call fails with a response of status 404, Read returns
nil, the identifier afterwards is empty, and every field is as before. -/
theorem read_not_found_clears_id {σ : Type} (org : Organization σ) (s s1 : σ)
    (d : ResourceData) (resp : Response) (err : GoError)
    (hget : org.client.Get s org.name d.Id = (GetResult.failed (some resp) err, s1))
    (h404 : resp.StatusCode = 404) :
    (resourceGithubRepositoryRead org s d).result = Outcome.returned none
      ∧ (resourceGithubRepositoryRead org s d).d.Id = ""
      ∧ (resourceGithubRepositoryRead org s d).d = { d with Id := "" } := by
  simp [resourceGithubRepositoryRead, hget, isNotFound, h404, ResourceData.SetId]

/-- Witness of C2: a record with identifier `demo` against a remote that
answers 404. -/
theorem read_not_found_clears_id_witness :
    (resourceGithubRepositoryRead (demoOrg (failedWith 404 "Not Found")) ()
        { Id := "demo", name := "demo", description := "kept" }).result = Outcome.returned none
      ∧ (resourceGithubRepositoryRead (demoOrg (failedWith 404 "Not Found")) ()
        { Id := "demo", name := "demo", description := "kept" }).d.Id = ""
      ∧ (resourceGithubRepositoryRead (demoOrg (failedWith 404 "Not Found")) ()
        { Id := "demo", name := "demo", description := "kept" }).d
        = { Id := "", name := "demo", description := "kept" } :=
  read_not_found_clears_id (demoOrg (failedWith 404 "Not Found")) () ()
    { Id := "demo", name := "demo", description := "kept" } ⟨404⟩ ⟨"Not Found"⟩ rfl rfl

/-- C4: Delete issues exactly one remote call, `Delete(o, n)` for the
organization `o` and the identifier `n`, returns exactly what that call
returned (the same error, or nil), and leaves the local record unchanged. -/
theorem delete_single_call {σ : Type} (org : Organization σ) (s : σ) (d : ResourceData) :
    (resourceGithubRepositoryDelete org s d).calls = [Call.delete org.name d.Id]
      ∧ (resourceGithubRepositoryDelete org s d).result
          = Outcome.returned (org.client.Delete s org.name d.Id).1
      ∧ (resourceGithubRepositoryDelete org s d).d = d
      ∧ (resourceGithubRepositoryDelete org s d).remote
          = (org.client.Delete s org.name d.Id).2 := by
  simp [resourceGithubRepositoryDelete]

/-- C7: the mapper returns a payload in which each of the thirteen settable
fields is present and equal to the local value, and in which the default
branch (and every computed field) is absent; Create issues either no call or
first the Create call with exactly that payload, and no create payload it
sends carries a default branch. -/
theorem mapper_payload_complete {σ : Type} (org : Organization σ) (s : σ)
    (d : ResourceData) :
    ((resourceGithubRepositoryObject d).Name = some d.name
      ∧ (resourceGithubRepositoryObject d).Description = some d.description
      ∧ (resourceGithubRepositoryObject d).Homepage = some d.homepage_url
      ∧ (resourceGithubRepositoryObject d).Private = some d.private_
      ∧ (resourceGithubRepositoryObject d).HasIssues = some d.has_issues
      ∧ (resourceGithubRepositoryObject d).HasWiki = some d.has_wiki
      ∧ (resourceGithubRepositoryObject d).AllowMergeCommit = some d.allow_merge_commit
      ∧ (resourceGithubRepositoryObject d).AllowSquashMerge = some d.allow_squash_merge
      ∧ (resourceGithubRepositoryObject d).AllowRebaseMerge = some d.allow_rebase_merge
      ∧ (resourceGithubRepositoryObject d).HasDownloads = some d.has_downloads
      ∧ (resourceGithubRepositoryObject d).AutoInit = some d.auto_init
      ∧ (resourceGithubRepositoryObject d).LicenseTemplate = some d.license_template
      ∧ (resourceGithubRepositoryObject d).GitignoreTemplate = some d.gitignore_template)
    ∧ ((resourceGithubRepositoryObject d).DefaultBranch = none
      ∧ (resourceGithubRepositoryObject d).FullName = none
      ∧ (resourceGithubRepositoryObject d).SSHURL = none
      ∧ (resourceGithubRepositoryObject d).SVNURL = none
      ∧ (resourceGithubRepositoryObject d).GitURL = none
      ∧ (resourceGithubRepositoryObject d).CloneURL = none)
    ∧ ((resourceGithubRepositoryCreate org s d).calls = []
      ∨ (resourceGithubRepositoryCreate org s d).calls.head?
          = some (Call.create org.name (resourceGithubRepositoryObject d)))
    ∧ (createPayloads (resourceGithubRepositoryCreate org s d).calls).all
        (fun req => req.DefaultBranch.isNone) = true := by
  have hobj : (resourceGithubRepositoryObject d).DefaultBranch.isNone = true := by
    simp [resourceGithubRepositoryObject]
  refine ⟨by simp [resourceGithubRepositoryObject], by simp [resourceGithubRepositoryObject],
    ?_, ?_⟩
  all_goals
    by_cases hdb : d.default_branch = ""
    · rcases hc : org.client.Create s org.name (resourceGithubRepositoryObject d) with ⟨c, s1⟩
      cases c with
      | error err => simp [create_of_error org s s1 d err hdb hc, createPayloads, hobj]
      | ok repo =>
        cases hn : repo.Name with
        | none => simp [create_of_nameless org s s1 d repo hdb hc hn, createPayloads, hobj]
        | some n =>
          simp [create_of_created org s s1 d repo n hdb hc hn, read_calls, createPayloads, hobj]
    · simp [create_of_rejected org s d hdb, createPayloads]

/-- C3: the first remote call of Update is the Edit call, keyed by the
organization and the current identifier; its payload carries a default branch
`b` exactly when the local `default_branch` is `b`, non-empty and not
`"master"`; apart from the default branch the payload is the mapper's output.
With `default_branch = "master"` no default branch is sent, with
`default_branch = "develop"` the payload carries `"develop"`. -/
theorem update_payload_default_branch {σ : Type} (org : Organization σ) (s : σ)
    (d : ResourceData) :
    ∃ req : Repository,
      (resourceGithubRepositoryUpdate org s d).calls.head?
          = some (Call.edit org.name d.Id req)
      ∧ (∀ b : String, req.DefaultBranch = some b
          ↔ (d.default_branch = b ∧ b ≠ "" ∧ b ≠ "master"))
      ∧ { req with DefaultBranch := none } = resourceGithubRepositoryObject d
      ∧ (d.default_branch = "master" → req.DefaultBranch = none)
      ∧ (d.default_branch = "develop" → req.DefaultBranch = some "develop") := by
  refine ⟨updateRequest d, ?_, ?_, ?_, ?_, ?_⟩
  · rcases hc : org.client.Edit s org.name d.Id (updateRequest d) with ⟨c, s1⟩
    cases c with
    | error err => simp [update_of_error org s s1 d err hc]
    | ok repo =>
      cases hn : repo.Name with
      | none => simp [update_of_nameless org s s1 d repo hc hn]
      | some n => simp [update_of_edited org s s1 d repo n hc hn]
  · intro b
    unfold updateRequest ResourceData.GetOk_default_branch
    by_cases h1 : d.default_branch = ""
    · simp only [h1, resourceGithubRepositoryObject]
      constructor
      · intro h; simp at h
      · rintro ⟨hb, hne, _⟩; exact absurd hb.symm hne
    · by_cases h2 : d.default_branch = "master"
      · simp only [h2, resourceGithubRepositoryObject]
        constructor
        · intro h; simp at h
        · rintro ⟨hb, _, hne⟩; exact absurd hb.symm hne
      · simp only [ne_eq, h1, h2, not_false_eq_true, decide_True, ite_true,
          Option.some.injEq]
        constructor
        · intro hb; subst hb; exact ⟨rfl, h1, h2⟩
        · intro hb; exact hb.1
  · unfold updateRequest ResourceData.GetOk_default_branch
    by_cases h1 : d.default_branch = ""
    · simp [h1, resourceGithubRepositoryObject]
    · by_cases h2 : d.default_branch = "master"
      · simp [h2, resourceGithubRepositoryObject]
      · simp [h1, h2, resourceGithubRepositoryObject]
  · intro h
    simp [updateRequest, ResourceData.GetOk_default_branch, h, resourceGithubRepositoryObject]
  · intro h
    simp [updateRequest, ResourceData.GetOk_default_branch, h]

/-- C5, as stated, fails: the remote answers Create and Get with one entity
whose description differs from the declared one; Create returns nil and the
local description is the remote one, not the input. -/
theorem create_settable_fields_counterexample :
    driftInput.default_branch = ""
      ∧ driftOrg.client.Create () driftOrg.name (resourceGithubRepositoryObject driftInput)
          = (Except.ok driftEntity, ())
      ∧ driftOrg.client.Get () driftOrg.name "demo" = (GetResult.found driftEntity, ())
      ∧ (resourceGithubRepositoryCreate driftOrg () driftInput).result = Outcome.returned none
      ∧ (resourceGithubRepositoryCreate driftOrg () driftInput).d.description
          = "edited remotely"
      ∧ (resourceGithubRepositoryCreate driftOrg () driftInput).d.description
          ≠ driftInput.description :=
  ⟨rfl, rfl, rfl, by decide, by decide, by decide⟩

/-- C5, amended: for a desired state with `default_branch` unset and a remote
entity `E` with name `n` that the remote returns from the Create call and then
from the Get call for `n`, Create returns nil after exactly those two calls and
leaves the record whose identifier and name are `n`, whose description,
homepage_url, private, has_issues, has_wiki, three merge flags, has_downloads,
default_branch and five computed fields are the values in `E` (the zero value
where `E` leaves the field absent), and whose auto_init, license_template and
gitignore_template are the input ones. -/
theorem create_then_read_record {σ : Type} (org : Organization σ) (s s1 s2 : σ)
    (d : ResourceData) (E : Repository) (n : String)
    (hdb : d.default_branch = "")
    (hname : E.Name = some n)
    (hcreate : org.client.Create s org.name (resourceGithubRepositoryObject d)
      = (Except.ok E, s1))
    (hget : org.client.Get s1 org.name n = (GetResult.found E, s2)) :
    (resourceGithubRepositoryCreate org s d).result = Outcome.returned none
      ∧ (resourceGithubRepositoryCreate org s d).calls
          = [Call.create org.name (resourceGithubRepositoryObject d), Call.get org.name n]
      ∧ (resourceGithubRepositoryCreate org s d).d
          = { Id := n
              name := n
              description := setString E.Description
              homepage_url := setString E.Homepage
              private_ := setBool E.Private
              has_issues := setBool E.HasIssues
              has_wiki := setBool E.HasWiki
              allow_merge_commit := setBool E.AllowMergeCommit
              allow_squash_merge := setBool E.AllowSquashMerge
              allow_rebase_merge := setBool E.AllowRebaseMerge
              has_downloads := setBool E.HasDownloads
              auto_init := d.auto_init
              default_branch := setString E.DefaultBranch
              license_template := d.license_template
              gitignore_template := d.gitignore_template
              full_name := setString E.FullName
              ssh_clone_url := setString E.SSHURL
              svn_url := setString E.SVNURL
              git_clone_url := setString E.GitURL
              http_clone_url := setString E.CloneURL } := by
  have hget1 : org.client.Get s1 org.name (d.SetId n).Id = (GetResult.found E, s2) := hget
  rw [create_of_created org s s1 d E n hdb hcreate hname,
    read_of_found org s1 s2 (d.SetId n) E hget1]
  simp [readFields, ResourceData.SetId]

/-- Witness of C5 amended: the example of the specification, against a remote
whose entity carries the declared values. -/
theorem create_then_read_record_witness :
    (resourceGithubRepositoryCreate demoEchoOrg () demoInput).result = Outcome.returned none
      ∧ (resourceGithubRepositoryCreate demoEchoOrg () demoInput).calls
          = [Call.create "org" (resourceGithubRepositoryObject demoInput),
              Call.get "org" "demo"]
      ∧ (resourceGithubRepositoryCreate demoEchoOrg () demoInput).d
          = { Id := "demo", name := "demo", private_ := true, allow_merge_commit := true,
              full_name := "org/demo", ssh_clone_url := "git@...:org/demo.git" } :=
  create_then_read_record demoEchoOrg () () () demoInput demoEcho "demo" rfl rfl rfl rfl

/-- The example of the specification with the remote entity exactly as it is
spelled there (name, full name and SSH URL only): Create returns nil, and
`private` and `allow_merge_commit` are read back from the entity, which leaves
them absent, so both are `false` afterwards although declared `true`. -/
theorem create_spec_example :
    (resourceGithubRepositoryCreate (demoOrg (GetResult.found demoEntity)) ()
        demoInput).result = Outcome.returned none
      ∧ (resourceGithubRepositoryCreate (demoOrg (GetResult.found demoEntity)) ()
        demoInput).d
          = { Id := "demo", name := "demo", private_ := false, allow_merge_commit := false,
              allow_squash_merge := false, allow_rebase_merge := false,
              full_name := "org/demo", ssh_clone_url := "git@...:org/demo.git" } := by
  decide

/-- C6, as stated, fails in both halves, each time after a Read that cleared
the identifier, so that the second Read is keyed by the empty name.  On a
fixed remote that answers 404 for `gone` and 400 for the empty name, one Read
returns nil and two Reads return the error.  On a fixed remote that answers 404
for `gone` and an entity for the empty name, one Read leaves the record with
only the identifier cleared and two Reads leave a record filled from that
entity. -/
theorem read_twice_counterexample :
    ((resourceGithubRepositoryRead vanishedOrg () { Id := "gone" }).result
        = Outcome.returned none
      ∧ (readTwice vanishedOrg () { Id := "gone" }).result
          = Outcome.returned (some ⟨"Bad Request"⟩)
      ∧ (readTwice vanishedOrg () { Id := "gone" }).result
          ≠ (resourceGithubRepositoryRead vanishedOrg () { Id := "gone" }).result)
    ∧ ((resourceGithubRepositoryRead ghostOrg () { Id := "gone" }).d = { Id := "" }
      ∧ (readTwice ghostOrg () { Id := "gone" }).d
          = { Id := "", name := "", description := "ghost", allow_merge_commit := false,
              allow_squash_merge := false, allow_rebase_merge := false,
              full_name := "org/" }
      ∧ (readTwice ghostOrg () { Id := "gone" }).d
          ≠ (resourceGithubRepositoryRead ghostOrg () { Id := "gone" }).d) := by
  decide

/-- C6, amended: against a remote whose Get call leaves the remote state as it
is, two Reads in succession leave the remote state one Read leaves.  They
return the same result and leave the same local record as one Read when the Get
call does not answer 404 for the record's identifier, or answers 404 for the
empty identifier as well.  In every case they leave the same local record
unless the Get call answers an entity for the empty identifier, and they
return the same result unless the Get call fails with a non-404 answer for the
empty identifier. -/
theorem read_twice_same {σ : Type} (org : Organization σ) (s : σ) (d : ResourceData)
    (hfixed : ∀ (t : σ) (o n : String), (org.client.Get t o n).2 = t) :
    (readTwice org s d).remote = (resourceGithubRepositoryRead org s d).remote
      ∧ (answersNotFound (org.client.Get s org.name d.Id).1 = false
            ∨ answersNotFound (org.client.Get s org.name "").1 = true
          → (readTwice org s d).result = (resourceGithubRepositoryRead org s d).result
            ∧ (readTwice org s d).d = (resourceGithubRepositoryRead org s d).d)
      ∧ ((∀ repo : Repository, (org.client.Get s org.name "").1 ≠ GetResult.found repo)
          → (readTwice org s d).d = (resourceGithubRepositoryRead org s d).d)
      ∧ ((∀ (resp : Option Response) (err : GoError),
            (org.client.Get s org.name "").1 = GetResult.failed resp err
              → isNotFound resp = true)
          → (readTwice org s d).result = (resourceGithubRepositoryRead org s d).result) := by
  unfold readTwice
  rcases hg : org.client.Get s org.name d.Id with ⟨g, s1⟩
  have hs1 : s1 = s := by
    have := hfixed s org.name d.Id
    rw [hg] at this
    exact this
  subst hs1
  cases g with
  | found repo =>
    rw [read_of_found org s1 s1 d repo hg]
    have hg2 : org.client.Get s1 org.name (readFields d d.Id repo).Id
        = (GetResult.found repo, s1) := hg
    simp only
    rw [read_of_found org s1 s1 (readFields d d.Id repo) repo hg2]
    simp [readFields]
  | failed resp err =>
    cases h4 : isNotFound resp with
    | false =>
      rw [read_of_error org s1 s1 d resp err hg h4]
      simp only
      rw [read_of_error org s1 s1 d resp err hg h4]
      simp
    | true =>
      rw [read_of_not_found org s1 s1 d resp err hg h4]
      rcases hg2 : org.client.Get s1 org.name "" with ⟨g2, s2⟩
      have hs2 : s2 = s1 := by
        have := hfixed s1 org.name ""
        rw [hg2] at this
        exact this
      subst hs2
      have hg3 : org.client.Get s2 org.name (d.SetId "").Id = (g2, s2) := hg2
      simp only
      cases g2 with
      | found repo2 =>
        rw [read_of_found org s2 s2 (d.SetId "") repo2 hg3]
        simp [answersNotFound, h4]
      | failed resp2 err2 =>
        cases h42 : isNotFound resp2 with
        | true =>
          rw [read_of_not_found org s2 s2 (d.SetId "") resp2 err2 hg3 h42]
          simp [ResourceData.SetId]
        | false =>
          rw [read_of_error org s2 s2 (d.SetId "") resp2 err2 hg3 h42]
          simp [answersNotFound, h4, h42]

/-- Witness of C6 amended: a record read twice against a remote that answers
every Get with the same entity, and a record read twice against the remote
that answers 404 for `gone` and 400 for the empty name (same local record). -/
theorem read_twice_same_witness :
    ((readTwice driftOrg () { Id := "demo" }).result
        = (resourceGithubRepositoryRead driftOrg () { Id := "demo" }).result
      ∧ (readTwice driftOrg () { Id := "demo" }).d
        = (resourceGithubRepositoryRead driftOrg () { Id := "demo" }).d)
    ∧ (readTwice vanishedOrg () { Id := "gone" }).d
        = (resourceGithubRepositoryRead vanishedOrg () { Id := "gone" }).d :=
  ⟨(read_twice_same driftOrg () { Id := "demo" } (fun _ _ _ => rfl)).2.1 (Or.inl rfl),
    (read_twice_same vanishedOrg () { Id := "gone" } (by
      intro t o n
      by_cases h : n = "" <;> simp [vanishedOrg, vanishedClient, h])).2.2.1
      (fun repo h => by simp [vanishedOrg, vanishedClient, failedWith] at h)⟩

/-- C8, as stated, fails: the remote Create call succeeds with the name
`demo` and the following Get call fails with status 500; Create returns that
error and the identifier, empty before, is `demo` afterwards.  Likewise Update
of a record with identifier `Demo` returns the error with the identifier
changed to `demo`. -/
theorem failure_atomicity_counterexample :
    (resourceGithubRepositoryCreate (demoOrg (failedWith 500 "Server Error")) ()
        demoInput).result = Outcome.returned (some ⟨"Server Error"⟩)
      ∧ demoInput.Id = ""
      ∧ (resourceGithubRepositoryCreate (demoOrg (failedWith 500 "Server Error")) ()
        demoInput).d.Id = "demo"
      ∧ (resourceGithubRepositoryCreate (demoOrg (failedWith 500 "Server Error")) ()
        demoInput).d ≠ demoInput
      ∧ (resourceGithubRepositoryUpdate (demoOrg (failedWith 500 "Server Error")) ()
        { demoInput with Id := "Demo" }).result = Outcome.returned (some ⟨"Server Error"⟩)
      ∧ (resourceGithubRepositoryUpdate (demoOrg (failedWith 500 "Server Error")) ()
        { demoInput with Id := "Demo" }).d.Id = "demo" := by
  decide

/-- C8, amended.  Whenever an operation returns an error `e`, every field of
the local record is as before; after Read and Delete the identifier is as
before too; after Create exactly one of three things happened: the default
branch was set and the record is as before, or the remote Create call failed
with `e` and the record is as before, or the remote Create call returned an
entity named `n`, the following Get call failed with `e` and a non-404 answer,
and the record is the one before with the identifier set to `n`; after Update
the remote Edit call failed with `e` and the record is as before, or it
returned an entity named `n`, the following Get call failed with `e` and a
non-404 answer, and the record is the one before with the identifier set to
`n`.  Conversely, when the remote Create (with the default branch unset) or
Edit call returns an entity named `n` and the following Get call fails with a
non-404 answer, the operation returns the error of the Get call and leaves the
record with the identifier set to `n`; when the remote Create or Edit call
fails, the operation returns its error and leaves the record as before. -/
theorem failure_keeps_fields {σ : Type} (op : Op) (org : Organization σ) (s : σ)
    (d : ResourceData) :
    (∀ e : GoError,
      (resourceGithubRepository op org s d).result = Outcome.returned (some e) →
      (resourceGithubRepository op org s d).d
          = d.SetId (resourceGithubRepository op org s d).d.Id
        ∧ (op = Op.Read ∨ op = Op.Delete → (resourceGithubRepository op org s d).d = d)
        ∧ (op = Op.Create →
            (d.default_branch ≠ "" ∧ (resourceGithubRepository op org s d).d = d)
            ∨ (d.default_branch = ""
                ∧ (∃ s1 : σ, org.client.Create s org.name (resourceGithubRepositoryObject d)
                    = (Except.error e, s1))
                ∧ (resourceGithubRepository op org s d).d = d)
            ∨ (d.default_branch = ""
                ∧ ∃ (E : Repository) (n : String) (s1 s2 : σ) (resp : Option Response),
                  org.client.Create s org.name (resourceGithubRepositoryObject d)
                    = (Except.ok E, s1)
                  ∧ E.Name = some n
                  ∧ org.client.Get s1 org.name n = (GetResult.failed resp e, s2)
                  ∧ isNotFound resp = false
                  ∧ (resourceGithubRepository op org s d).d = d.SetId n))
        ∧ (op = Op.Update →
            ((∃ s1 : σ, org.client.Edit s org.name d.Id (updateRequest d)
                  = (Except.error e, s1))
                ∧ (resourceGithubRepository op org s d).d = d)
            ∨ ∃ (E : Repository) (n : String) (s1 s2 : σ) (resp : Option Response),
                org.client.Edit s org.name d.Id (updateRequest d) = (Except.ok E, s1)
                ∧ E.Name = some n
                ∧ org.client.Get s1 org.name n = (GetResult.failed resp e, s2)
                ∧ isNotFound resp = false
                ∧ (resourceGithubRepository op org s d).d = d.SetId n))
    ∧ (∀ (E : Repository) (n : String) (s1 s2 : σ) (resp : Option Response) (err : GoError),
        d.default_branch = ""
        → org.client.Create s org.name (resourceGithubRepositoryObject d) = (Except.ok E, s1)
        → E.Name = some n
        → org.client.Get s1 org.name n = (GetResult.failed resp err, s2)
        → isNotFound resp = false
        → (resourceGithubRepositoryCreate org s d).result = Outcome.returned (some err)
          ∧ (resourceGithubRepositoryCreate org s d).d = d.SetId n)
    ∧ (∀ (E : Repository) (n : String) (s1 s2 : σ) (resp : Option Response) (err : GoError),
        org.client.Edit s org.name d.Id (updateRequest d) = (Except.ok E, s1)
        → E.Name = some n
        → org.client.Get s1 org.name n = (GetResult.failed resp err, s2)
        → isNotFound resp = false
        → (resourceGithubRepositoryUpdate org s d).result = Outcome.returned (some err)
          ∧ (resourceGithubRepositoryUpdate org s d).d = d.SetId n)
    ∧ (∀ (err : GoError) (s1 : σ),
        d.default_branch = ""
        → org.client.Create s org.name (resourceGithubRepositoryObject d)
            = (Except.error err, s1)
        → (resourceGithubRepositoryCreate org s d).result = Outcome.returned (some err)
          ∧ (resourceGithubRepositoryCreate org s d).d = d)
    ∧ (∀ (err : GoError) (s1 : σ),
        org.client.Edit s org.name d.Id (updateRequest d) = (Except.error err, s1)
        → (resourceGithubRepositoryUpdate org s d).result = Outcome.returned (some err)
          ∧ (resourceGithubRepositoryUpdate org s d).d = d) := by
  have hread : ∀ (t : σ) (d0 : ResourceData),
      (resourceGithubRepositoryRead org t d0).result ≠ Outcome.returned none →
      (resourceGithubRepositoryRead org t d0).d = d0
        ∧ ∃ (s2 : σ) (resp : Option Response) (err : GoError),
            org.client.Get t org.name d0.Id = (GetResult.failed resp err, s2)
            ∧ isNotFound resp = false
            ∧ (resourceGithubRepositoryRead org t d0).result = Outcome.returned (some err) := by
    intro t d0 h
    rcases hg : org.client.Get t org.name d0.Id with ⟨g, s2⟩
    cases g with
    | found repo => rw [read_of_found org t s2 d0 repo hg] at h; simp at h
    | failed resp err =>
      cases h4 : isNotFound resp with
      | true => rw [read_of_not_found org t s2 d0 resp err hg h4] at h; simp at h
      | false =>
        rw [read_of_error org t s2 d0 resp err hg h4]
        exact ⟨rfl, s2, resp, err, rfl, h4, rfl⟩
  have hreadE : ∀ (t : σ) (d0 : ResourceData) (e : GoError),
      (resourceGithubRepositoryRead org t d0).result = Outcome.returned (some e) →
      (resourceGithubRepositoryRead org t d0).d = d0
        ∧ ∃ (s2 : σ) (resp : Option Response),
            org.client.Get t org.name d0.Id = (GetResult.failed resp e, s2)
            ∧ isNotFound resp = false := by
    intro t d0 e h
    have hne : (resourceGithubRepositoryRead org t d0).result ≠ Outcome.returned none := by
      rw [h]; simp
    obtain ⟨hd, s2, resp, err, hg, h4, hres⟩ := hread t d0 hne
    rw [hres] at h
    simp only [Outcome.returned.injEq, Option.some.injEq] at h
    subst h
    exact ⟨hd, s2, resp, hg, h4⟩
  refine ⟨?_, ?_, ?_, ?_, ?_⟩
  · intro e herr
    cases op with
    | Read =>
      have h := (hreadE s d e herr).1
      simp only [resourceGithubRepository] at h ⊢
      simp [h, ResourceData.SetId]
    | Delete =>
      simp [resourceGithubRepository, resourceGithubRepositoryDelete, ResourceData.SetId]
    | Create =>
      simp only [resourceGithubRepository] at herr ⊢
      by_cases hdb : d.default_branch = ""
      · rcases hc : org.client.Create s org.name (resourceGithubRepositoryObject d)
          with ⟨c, s1⟩
        cases c with
        | error err =>
          rw [create_of_error org s s1 d err hdb hc] at herr ⊢
          simp only [Outcome.returned.injEq, Option.some.injEq] at herr
          subst herr
          refine ⟨by simp [ResourceData.SetId], by simp, fun _ => Or.inr (Or.inl ?_),
            by simp⟩
          exact ⟨hdb, ⟨s1, rfl⟩, rfl⟩
        | ok repo =>
          cases hn : repo.Name with
          | none =>
            rw [create_of_nameless org s s1 d repo hdb hc hn] at herr; simp at herr
          | some n =>
            rw [create_of_created org s s1 d repo n hdb hc hn] at herr ⊢
            obtain ⟨hd, s2, resp, hg, h4⟩ := hreadE s1 (d.SetId n) e herr
            have hg1 : org.client.Get s1 org.name n = (GetResult.failed resp e, s2) := hg
            simp only [hd]
            refine ⟨by simp [ResourceData.SetId], by simp,
              fun _ => Or.inr (Or.inr ?_), by simp⟩
            exact ⟨hdb, repo, n, s1, s2, resp, rfl, hn, hg1, h4, rfl⟩
      · rw [create_of_rejected org s d hdb]
        refine ⟨by simp [ResourceData.SetId], by simp, fun _ => Or.inl ⟨hdb, rfl⟩, by simp⟩
    | Update =>
      simp only [resourceGithubRepository] at herr ⊢
      rcases hc : org.client.Edit s org.name d.Id (updateRequest d) with ⟨c, s1⟩
      cases c with
      | error err =>
        rw [update_of_error org s s1 d err hc] at herr ⊢
        simp only [Outcome.returned.injEq, Option.some.injEq] at herr
        subst herr
        refine ⟨by simp [ResourceData.SetId], by simp, by simp, fun _ => Or.inl ?_⟩
        exact ⟨⟨s1, rfl⟩, rfl⟩
      | ok repo =>
        cases hn : repo.Name with
        | none => rw [update_of_nameless org s s1 d repo hc hn] at herr; simp at herr
        | some n =>
          rw [update_of_edited org s s1 d repo n hc hn] at herr ⊢
          obtain ⟨hd, s2, resp, hg, h4⟩ := hreadE s1 (d.SetId n) e herr
          have hg1 : org.client.Get s1 org.name n = (GetResult.failed resp e, s2) := hg
          simp only [hd]
          refine ⟨by simp [ResourceData.SetId], by simp, by simp, fun _ => Or.inr ?_⟩
          exact ⟨repo, n, s1, s2, resp, rfl, hn, hg1, h4, rfl⟩
  · intro E n s1 s2 resp err hdb hc hn hg h4
    have hg1 : org.client.Get s1 org.name (d.SetId n).Id = (GetResult.failed resp err, s2) := hg
    rw [create_of_created org s s1 d E n hdb hc hn,
      read_of_error org s1 s2 (d.SetId n) resp err hg1 h4]
    exact ⟨rfl, rfl⟩
  · intro E n s1 s2 resp err hc hn hg h4
    have hg1 : org.client.Get s1 org.name (d.SetId n).Id = (GetResult.failed resp err, s2) := hg
    rw [update_of_edited org s s1 d E n hc hn,
      read_of_error org s1 s2 (d.SetId n) resp err hg1 h4]
    exact ⟨rfl, rfl⟩
  · intro err s1 hdb hc
    rw [create_of_error org s s1 d err hdb hc]
    exact ⟨rfl, rfl⟩
  · intro err s1 hc
    rw [update_of_error org s s1 d err hc]
    exact ⟨rfl, rfl⟩

/-- Witness of C8 amended: Create against a remote whose Create call returns
the entity named `demo` and whose Get call fails with status 500 returns that
error and leaves the declared record with the identifier `demo`; the same
follows from the returned error alone. -/
theorem failure_keeps_fields_witness :
    ((resourceGithubRepositoryCreate (demoOrg (failedWith 500 "Server Error")) ()
        demoInput).result = Outcome.returned (some ⟨"Server Error"⟩)
      ∧ (resourceGithubRepositoryCreate (demoOrg (failedWith 500 "Server Error")) ()
        demoInput).d = { demoInput with Id := "demo" })
    ∧ (resourceGithubRepository Op.Create (demoOrg (failedWith 500 "Server Error")) ()
        demoInput).d
      = demoInput.SetId (resourceGithubRepository Op.Create
          (demoOrg (failedWith 500 "Server Error")) () demoInput).d.Id :=
  ⟨(failure_keeps_fields Op.Create (demoOrg (failedWith 500 "Server Error")) ()
        demoInput).2.1 demoEntity "demo" () () (some ⟨500⟩) ⟨"Server Error"⟩
        rfl rfl rfl rfl rfl,
    ((failure_keeps_fields Op.Create (demoOrg (failedWith 500 "Server Error")) ()
        demoInput).1 ⟨"Server Error"⟩ (by decide)).1⟩

/-- C9, as stated, fails: the remote Create call returns the name `demo`, the
Get call of the follow-up Read answers 404; Create returns nil and the
identifier afterwards is empty. -/
theorem create_success_counterexample :
    (demoOrg (failedWith 404 "Not Found")).client.Create () "org"
        (resourceGithubRepositoryObject demoInput) = (Except.ok demoEntity, ())
      ∧ demoEntity.Name = some "demo"
      ∧ (resourceGithubRepositoryCreate (demoOrg (failedWith 404 "Not Found")) ()
        demoInput).result = Outcome.returned none
      ∧ (resourceGithubRepositoryCreate (demoOrg (failedWith 404 "Not Found")) ()
        demoInput).d.Id = "" :=
  ⟨rfl, rfl, by decide, by decide⟩

/-- C9, amended: whenever Create returns nil, the remote Create call returned
an entity with a name `n`, and the identifier afterwards is `n` when the Get
call of the follow-up Read did not answer 404 and empty when it answered 404. -/
theorem create_success_identifier {σ : Type} (org : Organization σ) (s : σ)
    (d : ResourceData)
    (hok : (resourceGithubRepositoryCreate org s d).result = Outcome.returned none) :
    ∃ (E : Repository) (n : String) (s1 : σ),
      org.client.Create s org.name (resourceGithubRepositoryObject d) = (Except.ok E, s1)
      ∧ E.Name = some n
      ∧ (answersNotFound (org.client.Get s1 org.name n).1 = false
          → (resourceGithubRepositoryCreate org s d).d.Id = n)
      ∧ (answersNotFound (org.client.Get s1 org.name n).1 = true
          → (resourceGithubRepositoryCreate org s d).d.Id = "") := by
  by_cases hdb : d.default_branch = ""
  · rcases hc : org.client.Create s org.name (resourceGithubRepositoryObject d) with ⟨c, s1⟩
    cases c with
    | error err => rw [create_of_error org s s1 d err hdb hc] at hok; simp at hok
    | ok repo =>
      cases hn : repo.Name with
      | none => rw [create_of_nameless org s s1 d repo hdb hc hn] at hok; simp at hok
      | some n =>
        refine ⟨repo, n, s1, rfl, hn, ?_, ?_⟩
        all_goals
          rw [create_of_created org s s1 d repo n hdb hc hn]
          rcases hg : org.client.Get s1 org.name n with ⟨g, s2⟩
          have hg1 : org.client.Get s1 org.name (d.SetId n).Id = (g, s2) := hg
          cases g with
          | found r =>
            rw [read_of_found org s1 s2 (d.SetId n) r hg1]
            simp [answersNotFound, readFields, ResourceData.SetId]
          | failed resp err =>
            cases h4 : isNotFound resp with
            | true =>
              rw [read_of_not_found org s1 s2 (d.SetId n) resp err hg1 h4]
              simp [answersNotFound, h4, ResourceData.SetId]
            | false =>
              rw [read_of_error org s1 s2 (d.SetId n) resp err hg1 h4]
              simp [answersNotFound, h4, ResourceData.SetId]
  · rw [create_of_rejected org s d hdb] at hok; simp at hok

/-- Witness of C9 amended: the example of the specification, with the entity as
the specification spells it. -/
theorem create_success_identifier_witness :
    ∃ (E : Repository) (n : String) (s1 : Unit),
      (demoOrg (GetResult.found demoEntity)).client.Create ()
          (demoOrg (GetResult.found demoEntity)).name
          (resourceGithubRepositoryObject demoInput) = (Except.ok E, s1)
      ∧ E.Name = some n
      ∧ (answersNotFound ((demoOrg (GetResult.found demoEntity)).client.Get s1
            (demoOrg (GetResult.found demoEntity)).name n).1 = false
          → (resourceGithubRepositoryCreate (demoOrg (GetResult.found demoEntity)) ()
              demoInput).d.Id = n)
      ∧ (answersNotFound ((demoOrg (GetResult.found demoEntity)).client.Get s1
            (demoOrg (GetResult.found demoEntity)).name n).1 = true
          → (resourceGithubRepositoryCreate (demoOrg (GetResult.found demoEntity)) ()
              demoInput).d.Id = "") :=
  create_success_identifier (demoOrg (GetResult.found demoEntity)) () demoInput (by decide)

/-- C10, as stated, fails: the remote Edit call returns the name `demo`, the
Get call of the follow-up Read answers 404; Update returns nil and the
identifier afterwards is empty, not the name the Edit call returned. -/
theorem update_identifier_counterexample :
    (demoOrg (failedWith 404 "Not Found")).client.Edit () "org" "demo"
        (updateRequest { demoInput with Id := "demo" }) = (Except.ok demoEntity, ())
      ∧ demoEntity.Name = some "demo"
      ∧ (resourceGithubRepositoryUpdate (demoOrg (failedWith 404 "Not Found")) ()
        { demoInput with Id := "demo" }).result = Outcome.returned none
      ∧ (resourceGithubRepositoryUpdate (demoOrg (failedWith 404 "Not Found")) ()
        { demoInput with Id := "demo" }).d.Id = ""
      ∧ (resourceGithubRepositoryUpdate (demoOrg (failedWith 404 "Not Found")) ()
        { demoInput with Id := "demo" }).calls
          = [Call.edit "org" "demo" (updateRequest { demoInput with Id := "demo" }),
              Call.get "org" "demo"] :=
  ⟨rfl, rfl, by decide, by decide, by decide⟩

/-- C10, amended: after Create, Read or Update returns nil and leaves a
non-empty identifier, the local name equals the identifier, and after such an
Update the remote Edit call returned an entity whose name is the identifier.
Whenever the remote Edit call of Update returns an entity with name `n`, Update
issues exactly the Edit call, keyed by the previous identifier, and then the Get
call keyed by `n`; the identifier afterwards is `n` when that Get call did not
answer 404, and when it answered 404 Update returns nil with the identifier
empty. -/
theorem identity_invariant {σ : Type} (op : Op) (org : Organization σ) (s : σ)
    (d : ResourceData) :
    (op ≠ Op.Delete
        → (resourceGithubRepository op org s d).result = Outcome.returned none
        → (resourceGithubRepository op org s d).d.Id ≠ ""
        → (resourceGithubRepository op org s d).d.name
            = (resourceGithubRepository op org s d).d.Id
          ∧ (op = Op.Update → ∃ (E : Repository) (s1 : σ),
              org.client.Edit s org.name d.Id (updateRequest d) = (Except.ok E, s1)
              ∧ E.Name = some (resourceGithubRepository op org s d).d.Id))
      ∧ (∀ (E : Repository) (n : String) (s1 : σ),
          org.client.Edit s org.name d.Id (updateRequest d) = (Except.ok E, s1)
          → E.Name = some n
          → (resourceGithubRepositoryUpdate org s d).calls
              = [Call.edit org.name d.Id (updateRequest d), Call.get org.name n]
            ∧ (answersNotFound (org.client.Get s1 org.name n).1 = false
                → (resourceGithubRepositoryUpdate org s d).d.Id = n)
            ∧ (answersNotFound (org.client.Get s1 org.name n).1 = true
                → (resourceGithubRepositoryUpdate org s d).d.Id = ""
                  ∧ (resourceGithubRepositoryUpdate org s d).result
                    = Outcome.returned none)) := by
  have hread : ∀ (t : σ) (d0 : ResourceData),
      (resourceGithubRepositoryRead org t d0).result = Outcome.returned none →
      (resourceGithubRepositoryRead org t d0).d.Id ≠ "" →
      (resourceGithubRepositoryRead org t d0).d.name = d0.Id
        ∧ (resourceGithubRepositoryRead org t d0).d.Id = d0.Id := by
    intro t d0 h hne
    rcases hg : org.client.Get t org.name d0.Id with ⟨g, s2⟩
    cases g with
    | found repo =>
      rw [read_of_found org t s2 d0 repo hg]
      simp [readFields]
    | failed resp err =>
      cases h4 : isNotFound resp with
      | true =>
        rw [read_of_not_found org t s2 d0 resp err hg h4] at hne
        simp [ResourceData.SetId] at hne
      | false => rw [read_of_error org t s2 d0 resp err hg h4] at h; simp at h
  refine ⟨?_, ?_⟩
  · intro hop hok hid
    cases op with
    | Delete => exact absurd rfl hop
    | Read =>
      simp only [resourceGithubRepository] at hok hid ⊢
      obtain ⟨h1, h2⟩ := hread s d hok hid
      exact ⟨by rw [h1, h2], by simp⟩
    | Create =>
      simp only [resourceGithubRepository] at hok hid ⊢
      by_cases hdb : d.default_branch = ""
      · rcases hc : org.client.Create s org.name (resourceGithubRepositoryObject d)
          with ⟨c, s1⟩
        cases c with
        | error err => rw [create_of_error org s s1 d err hdb hc] at hok; simp at hok
        | ok repo =>
          cases hn : repo.Name with
          | none => rw [create_of_nameless org s s1 d repo hdb hc hn] at hok; simp at hok
          | some n =>
            rw [create_of_created org s s1 d repo n hdb hc hn] at hok hid ⊢
            obtain ⟨h1, h2⟩ := hread s1 (d.SetId n) hok hid
            exact ⟨by simp only [h1, h2], by simp⟩
      · rw [create_of_rejected org s d hdb] at hok; simp at hok
    | Update =>
      simp only [resourceGithubRepository] at hok hid ⊢
      rcases hc : org.client.Edit s org.name d.Id (updateRequest d) with ⟨c, s1⟩
      cases c with
      | error err => rw [update_of_error org s s1 d err hc] at hok; simp at hok
      | ok repo =>
        cases hn : repo.Name with
        | none => rw [update_of_nameless org s s1 d repo hc hn] at hok; simp at hok
        | some n =>
          rw [update_of_edited org s s1 d repo n hc hn] at hok hid ⊢
          obtain ⟨h1, h2⟩ := hread s1 (d.SetId n) hok hid
          refine ⟨by simp only [h1, h2], fun _ => ⟨repo, s1, rfl, ?_⟩⟩
          show repo.Name = some (resourceGithubRepositoryRead org s1 (d.SetId n)).d.Id
          rw [h2, hn]; rfl
  · intro E n s1 hc hn
    rw [update_of_edited org s s1 d E n hc hn]
    refine ⟨?_, ?_, ?_⟩
    · show Call.edit org.name d.Id (updateRequest d)
          :: (resourceGithubRepositoryRead org s1 (d.SetId n)).calls
        = [Call.edit org.name d.Id (updateRequest d), Call.get org.name n]
      rw [read_calls]; rfl
    all_goals
      rcases hg : org.client.Get s1 org.name n with ⟨g, s2⟩
      have hg1 : org.client.Get s1 org.name (d.SetId n).Id = (g, s2) := hg
      cases g with
      | found r =>
        rw [read_of_found org s1 s2 (d.SetId n) r hg1]
        simp [answersNotFound, readFields, ResourceData.SetId]
      | failed resp err =>
        cases h4 : isNotFound resp with
        | true =>
          rw [read_of_not_found org s1 s2 (d.SetId n) resp err hg1 h4]
          simp [answersNotFound, h4, ResourceData.SetId]
        | false =>
          rw [read_of_error org s1 s2 (d.SetId n) resp err hg1 h4]
          simp [answersNotFound, h4, ResourceData.SetId]

/-- Witness of C10 amended: Update of a record with identifier `Demo` against a
remote whose Edit and Get calls return the entity named `demo`; the identifier
and the name afterwards are both `demo`, and the Get call was keyed by `demo`. -/
theorem identity_invariant_witness :
    (resourceGithubRepository Op.Update driftOrg () { Id := "Demo", name := "Demo" }).d.Id
        = "demo"
      ∧ (resourceGithubRepository Op.Update driftOrg ()
          { Id := "Demo", name := "Demo" }).d.name = "demo"
      ∧ (resourceGithubRepositoryUpdate driftOrg () { Id := "Demo", name := "Demo" }).calls
          = [Call.edit "org" "Demo" (updateRequest { Id := "Demo", name := "Demo" }),
              Call.get "org" "demo"] :=
  ⟨by decide,
    ((identity_invariant Op.Update driftOrg () { Id := "Demo", name := "Demo" }).1
      (by decide) (by decide) (by decide)).1,
    ((identity_invariant Op.Update driftOrg () { Id := "Demo", name := "Demo" }).2
      driftEntity "demo" () rfl rfl).1⟩

end Github
